import Mathlib

/-!
Shallow embedding of the Mandelbrot GPU explorer's interactive view-transform
state machine (`src/lib.rs`).  The `f64` coordinate fields are embedded as
exact rationals (`ℚ`): the specification states its floating-point properties
"within floating-point tolerance", i.e. as exact identities of the underlying
real-number transform.  The `u32` field `max_iterations` is embedded as `Nat`
reduced modulo `2 ^ 32` at each addition (release-mode wrapping semantics of
`+=` on `u32`); `saturating_sub` on `u32` is `Nat` subtraction.
-/

set_option linter.unreachableTactic false
set_option linter.unusedTactic false
set_option linter.unusedVariables false

/-- The uniform block mirrored to the GPU (`struct MandelbrotUniform`,
lines 26-34): bottom-left corner `(min_x, min_y)`, viewport `height`,
`aspect_ratio = width / height` of the window, and the iteration budget. -/
structure MandelbrotUniform where
  min_x : ℚ
  min_y : ℚ
  height : ℚ
  aspect_ratio : ℚ
  max_iterations : Nat
  deriving Repr, DecidableEq

theorem MandelbrotUniform.ext_fields {a b : MandelbrotUniform}
    (h1 : a.min_x = b.min_x) (h2 : a.min_y = b.min_y) (h3 : a.height = b.height)
    (h4 : a.aspect_ratio = b.aspect_ratio)
    (h5 : a.max_iterations = b.max_iterations) : a = b := by
  cases a; cases b; simp_all

/-- Application state (`struct State`, lines 9-22), restricted to the fields
the event handlers read or write: the uniform, the window size (`size`), the
surface configuration's pixel extent (`config.width/height`), the last seen
cursor position (`cursor_pos`), and the `dragging` flag. -/
structure State where
  mandelbrot_uniform : MandelbrotUniform
  size_width : Nat
  size_height : Nat
  config_width : Nat
  config_height : Nat
  cursor_pos_x : ℚ
  cursor_pos_y : ℚ
  dragging : Bool
  deriving Repr, DecidableEq

/-- The two keyboard keys the input handler reacts to (lines 269-290). -/
inductive ArrowKey where
  | up
  | down
  deriving Repr, DecidableEq

/-- Window events that reach `State::input` / `State::resize`, with the wheel
delta already normalized to a scalar (lines 247-250 collapse
`LineDelta`/`PixelDelta` to one `f64`). -/
inductive WindowEvent where
  | cursorLeft
  | mouseInput (pressed : Bool)
  | cursorMoved (x y : ℚ)
  | mouseWheel (delta : ℚ)
  | keyboardInput (key : ArrowKey)
  | resized (w h : Nat)
  deriving Repr, DecidableEq

/-- The `MouseWheel` arm of `State::input` (lines 246-267), with the state's
cursor position and window size passed as parameters:
`scale = 1 - delta/10`, `u = cursor_x/w`, `v = 1 - cursor_y/h`,
`min_x -= u * height_diff * aspect_ratio`, `min_y -= v * height_diff`,
`height *= scale`. -/
def zoomUniform (uni : MandelbrotUniform) (cursor_x cursor_y w h delta : ℚ) :
    MandelbrotUniform :=
  let scale := 1 - delta / 10
  let u := cursor_x / w
  let v := 1 - cursor_y / h
  let new_height := uni.height * scale
  let height_diff := new_height - uni.height
  { uni with
    min_x := uni.min_x - u * height_diff * uni.aspect_ratio
    min_y := uni.min_y - v * height_diff
    height := uni.height * scale }

/-- The `CursorMoved` dragging arm of `State::input` (lines 229-241), with the
pixel delta and window size as parameters:
`min_x -= dx / w * height * aspect_ratio`, `min_y += dy / h * height`. -/
def panUniform (uni : MandelbrotUniform) (dx dy w h : ℚ) : MandelbrotUniform :=
  { uni with
    min_x := uni.min_x - dx / w * uni.height * uni.aspect_ratio
    min_y := uni.min_y + dy / h * uni.height }

/-- The `KeyboardInput` arm's update of `max_iterations` (lines 278-286):
ArrowUp adds 128 (wrapping at `2 ^ 32`, the release-mode semantics of `+=` on
`u32`); ArrowDown is `saturating_sub(128).max(128)`. -/
def iterKeyStep (m : Nat) (k : ArrowKey) : Nat :=
  match k with
  | .up => (m + 128) % 2 ^ 32
  | .down => max (m - 128) 128

/-- `State::input` (lines 214-293): returns the updated state and the
"input consumed" boolean. -/
def input (s : State) (e : WindowEvent) : State × Bool :=
  match e with
  | .cursorLeft => ({ s with dragging := false }, false)
  | .mouseInput pressed => ({ s with dragging := pressed }, false)
  | .cursorMoved x y =>
      let panned :=
        panUniform s.mandelbrot_uniform (x - s.cursor_pos_x)
          (y - s.cursor_pos_y) (s.size_width : ℚ) (s.size_height : ℚ)
      let s1 :=
        if s.dragging then { s with mandelbrot_uniform := panned } else s
      ({ s1 with cursor_pos_x := x, cursor_pos_y := y }, false)
  | .mouseWheel delta =>
      let zoomed :=
        zoomUniform s.mandelbrot_uniform s.cursor_pos_x s.cursor_pos_y
          (s.size_width : ℚ) (s.size_height : ℚ) delta
      ({ s with mandelbrot_uniform := zoomed }, true)
  | .keyboardInput k =>
      let uni := s.mandelbrot_uniform
      let uni1 := { uni with max_iterations := iterKeyStep uni.max_iterations k }
      ({ s with mandelbrot_uniform := uni1 }, true)
  | .resized _ _ => (s, false)

/-- `State::resize` (lines 203-212): ignored when either dimension is zero;
otherwise updates `size`, the surface configuration, and recomputes
`aspect_ratio = new_width / new_height`. -/
def resize (s : State) (new_w new_h : Nat) : State :=
  if 0 < new_w ∧ 0 < new_h then
    { s with
      size_width := new_w
      size_height := new_h
      config_width := new_w
      config_height := new_h
      mandelbrot_uniform :=
        { s.mandelbrot_uniform with aspect_ratio := (new_w : ℚ) / (new_h : ℚ) } }
  else s

/-- One event-loop dispatch (lines 352-381): the event first goes to
`State::input`; when it is not consumed, a `Resized` event additionally runs
`State::resize`. -/
def step (s : State) (e : WindowEvent) : State :=
  match input s e with
  | (s1, true) => s1
  | (s1, false) =>
      match e with
      | .resized w h => resize s1 w h
      | _ => s1

/-- Folding a sequence of window events through `step`. -/
def reach (s : State) (evs : List WindowEvent) : State :=
  evs.foldl step s

/-- The startup state: uniform from lines 98-105 and the 800×600 initial
window size of `run` (line 344), cursor at the origin, not dragging. -/
def initState : State :=
  { mandelbrot_uniform :=
      { min_x := -2, min_y := -1, height := 2,
        aspect_ratio := (800 : ℚ) / 600, max_iterations := 128 }
    size_width := 800
    size_height := 600
    config_width := 800
    config_height := 600
    cursor_pos_x := 0
    cursor_pos_y := 0
    dragging := false }

/-- The plane coordinate the viewport maps a cursor fraction `(u, v)` to:
`(min_x + u * height * aspect_ratio, min_y + v * height)` (the observable of
the spec's zoom fixed-point property). -/
def planePoint (uni : MandelbrotUniform) (u v : ℚ) : ℚ × ℚ :=
  (uni.min_x + u * uni.height * uni.aspect_ratio, uni.min_y + v * uni.height)

/-- The classified failures of `Surface::get_current_texture` matched at
lines 373-378 (`Outdated` and `Timeout` fall to the catch-all log arm). -/
inductive SurfaceError where
  | lost
  | outOfMemory
  | outdated
  | timeout
  deriving Repr, DecidableEq

/-- What one `RedrawRequested` dispatch did to the event loop. -/
inductive RedrawOutcome where
  | presented
  | recovered
  | terminated
  | skippedLogged
  deriving Repr, DecidableEq

/-- The `RedrawRequested` arm of the event loop (lines 371-379): `Ok` presents;
`Lost` reconfigures by calling `resize` at the last known size and continues;
`OutOfMemory` exits; any other error is logged and the frame skipped. -/
def handleRedraw (s : State) (res : Option SurfaceError) : State × RedrawOutcome :=
  match res with
  | none => (s, .presented)
  | some .lost => (resize s s.size_width s.size_height, .recovered)
  | some .outOfMemory => (s, .terminated)
  | some .outdated => (s, .skippedLogged)
  | some .timeout => (s, .skippedLogged)

/-- Folding a sequence of arrow-key presses through the `max_iterations`
update (the `KeyboardInput` arm applied repeatedly). -/
def applyKeys (ks : List ArrowKey) (m : Nat) : Nat :=
  ks.foldl iterKeyStep m

/-- `true` iff the event is not a wheel event of delta ≥ 10 (the deltas for
which `scale = 1 - delta/10` stays positive). -/
def wheelBounded : WindowEvent → Bool
  | .mouseWheel d => decide (d < 10)
  | _ => true

theorem applyKeys_nil (m : Nat) : applyKeys [] m = m := rfl

theorem applyKeys_cons (k : ArrowKey) (ks : List ArrowKey) (m : Nat) :
    applyKeys (k :: ks) m = applyKeys ks (iterKeyStep m k) := rfl

theorem reach_nil (s : State) : reach s [] = s := rfl

theorem reach_cons (s : State) (e : WindowEvent) (evs : List WindowEvent) :
    reach s (e :: evs) = reach (step s e) evs := rfl

/-- The wheel transform at delta 0 is the identity on the uniform. -/
theorem zoomUniform_zero (uni : MandelbrotUniform) (cx cy w h : ℚ) :
    zoomUniform uni cx cy w h 0 = uni := by
  apply MandelbrotUniform.ext_fields <;> simp [zoomUniform] <;> ring

/-- Claim C1: for every viewport with positive height and every positive
window size, the wheel-zoom transform leaves the plane coordinate mapped
from the cursor fraction (px/w, 1 - py/h) unchanged. -/
theorem zoom_fixed_point (uni : MandelbrotUniform) (px py w h delta : ℚ)
    (hheight : 0 < uni.height) (hw : 0 < w) (hh : 0 < h) :
    planePoint (zoomUniform uni px py w h delta) (px / w) (1 - py / h) =
      planePoint uni (px / w) (1 - py / h) := by
  simp only [planePoint, zoomUniform, Prod.mk.injEq]
  constructor <;> ring

/-- Witness for C1: the zoom fixed-point at the initial state, cursor
(400, 300), window 800×600, delta 1. -/
theorem zoom_fixed_point_witness :
    (0 < initState.mandelbrot_uniform.height ∧ 0 < (800 : ℚ) ∧ 0 < (600 : ℚ)) ∧
    planePoint (zoomUniform initState.mandelbrot_uniform 400 300 800 600 1)
        ((400 : ℚ) / 800) (1 - (300 : ℚ) / 600) =
      planePoint initState.mandelbrot_uniform ((400 : ℚ) / 800) (1 - (300 : ℚ) / 600) :=
  ⟨⟨by norm_num [initState], by norm_num, by norm_num⟩,
   zoom_fixed_point initState.mandelbrot_uniform 400 300 800 600 1
     (by norm_num [initState]) (by norm_num) (by norm_num)⟩

/-- Claim C7: from the initial state (origin (-2, -1), height 2, window
800×600) with the left button held and the cursor last seen at (0, 0), a
cursor move to (10, 0) — pixel delta (10, 0) — sets
origin_x = -2 - 10/800·2·(800/600) and leaves origin_y unchanged. -/
theorem scenario_a_pan :
    (input { initState with dragging := true }
        (WindowEvent.cursorMoved 10 0)).1.mandelbrot_uniform.min_x =
      -2 - 10 / 800 * 2 * ((800 : ℚ) / 600) ∧
    (input { initState with dragging := true }
        (WindowEvent.cursorMoved 10 0)).1.mandelbrot_uniform.min_y = -1 := by
  constructor <;> · simp only [input, panUniform, initState]; norm_num

/-- Claim C8: a wheel event with delta 0 is the exact identity on the whole
application state (scale = 1 and height_diff = 0, so origin, height, aspect
ratio, and max_iterations are all unchanged). -/
theorem wheel_zero_identity (s : State) :
    (input s (WindowEvent.mouseWheel 0)).1 = s := by
  simp [input, zoomUniform_zero]

/-- Claim C9: a cursor move while dragging mutates only origin_x/origin_y:
height, aspect_ratio, max_iterations, the window size, and the surface
configuration are unchanged, for every pixel position and every state. -/
theorem pan_frame_condition (s : State) (x y : ℚ) (hd : s.dragging = true) :
    (input s (WindowEvent.cursorMoved x y)).1.mandelbrot_uniform.height =
      s.mandelbrot_uniform.height ∧
    (input s (WindowEvent.cursorMoved x y)).1.mandelbrot_uniform.aspect_ratio =
      s.mandelbrot_uniform.aspect_ratio ∧
    (input s (WindowEvent.cursorMoved x y)).1.mandelbrot_uniform.max_iterations =
      s.mandelbrot_uniform.max_iterations ∧
    (input s (WindowEvent.cursorMoved x y)).1.size_width = s.size_width ∧
    (input s (WindowEvent.cursorMoved x y)).1.size_height = s.size_height ∧
    (input s (WindowEvent.cursorMoved x y)).1.config_width = s.config_width ∧
    (input s (WindowEvent.cursorMoved x y)).1.config_height = s.config_height := by
  simp [input, panUniform, hd]

/-- Witness for C9: the pan of Scenario A leaves the height and the window
size unchanged. -/
theorem pan_frame_condition_witness :
    ({ initState with dragging := true } : State).dragging = true ∧
    (input { initState with dragging := true }
        (WindowEvent.cursorMoved 10 0)).1.mandelbrot_uniform.height =
      ({ initState with dragging := true } : State).mandelbrot_uniform.height ∧
    (input { initState with dragging := true }
        (WindowEvent.cursorMoved 10 0)).1.size_width =
      ({ initState with dragging := true } : State).size_width :=
  ⟨rfl, (pan_frame_condition { initState with dragging := true } 10 0 rfl).1,
   (pan_frame_condition { initState with dragging := true } 10 0 rfl).2.2.2.1⟩

/-- Claim C10: a cursor move while not dragging leaves the uniform untouched,
and every cursor move (dragging or not) records the event position as the new
cursor position. -/
theorem cursor_idle_noop (s : State) (x y : ℚ) :
    (s.dragging = false →
      (input s (WindowEvent.cursorMoved x y)).1.mandelbrot_uniform = s.mandelbrot_uniform) ∧
    (input s (WindowEvent.cursorMoved x y)).1.cursor_pos_x = x ∧
    (input s (WindowEvent.cursorMoved x y)).1.cursor_pos_y = y := by
  refine ⟨fun hd => ?_, ?_, ?_⟩ <;> simp [input, *]

/-- Witness for C10: a cursor move at the initial (idle) state. -/
theorem cursor_idle_noop_witness :
    initState.dragging = false ∧
    (input initState (WindowEvent.cursorMoved 5 7)).1.mandelbrot_uniform =
      initState.mandelbrot_uniform ∧
    (input initState (WindowEvent.cursorMoved 5 7)).1.cursor_pos_x = 5 :=
  ⟨rfl, (cursor_idle_noop initState 5 7).1 rfl, (cursor_idle_noop initState 5 7).2.1⟩

/-- Counterexample for C4: with the left button held (dragging), a cursor
move — a pan — reports "not consumed" (`false`), contradicting the claim
that pan events are consumed. -/
theorem input_consumed_counterexample :
    ({ initState with dragging := true } : State).dragging = true ∧
    (input { initState with dragging := true } (WindowEvent.cursorMoved 10 0)).2 = false :=
  ⟨rfl, rfl⟩

/-- Claim C4 (amended): the input handler returns `true` exactly for wheel
and arrow-key events; cursor moves (dragging or not), cursor-leave, and
left-button press/release all return `false`. -/
theorem input_consumed_amended (s : State) (x y d : ℚ) (k : ArrowKey) (p : Bool) :
    (input s (WindowEvent.mouseWheel d)).2 = true ∧
    (input s (WindowEvent.keyboardInput k)).2 = true ∧
    (input s (WindowEvent.cursorMoved x y)).2 = false ∧
    (input s WindowEvent.cursorLeft).2 = false ∧
    (input s (WindowEvent.mouseInput p)).2 = false :=
  ⟨rfl, rfl, rfl, rfl, rfl⟩

/-- Claim C5: a resize to positive dimensions sets
`aspect_ratio = w / h` and changes no other uniform field; a resize with a
zero dimension leaves the whole state (surface configuration included)
unchanged. -/
theorem resize_behavior (s : State) (w h : Nat) :
    (0 < w → 0 < h →
      (resize s w h).mandelbrot_uniform.aspect_ratio = (w : ℚ) / (h : ℚ) ∧
      (resize s w h).mandelbrot_uniform.min_x = s.mandelbrot_uniform.min_x ∧
      (resize s w h).mandelbrot_uniform.min_y = s.mandelbrot_uniform.min_y ∧
      (resize s w h).mandelbrot_uniform.height = s.mandelbrot_uniform.height ∧
      (resize s w h).mandelbrot_uniform.max_iterations =
        s.mandelbrot_uniform.max_iterations) ∧
    ((w = 0 ∨ h = 0) → resize s w h = s) := by
  constructor
  · intro hw hh
    simp [resize, hw, hh]
  · rintro (rfl | rfl) <;> simp [resize]

/-- Witness for C5: a 1024×768 resize of the initial state, and a zero-width
resize left alone. -/
theorem resize_behavior_witness :
    ((0 < 1024 ∧ 0 < 768) ∧
      (resize initState 1024 768).mandelbrot_uniform.aspect_ratio =
        ((1024 : Nat) : ℚ) / ((768 : Nat) : ℚ)) ∧
    resize initState 0 768 = initState :=
  ⟨⟨⟨by norm_num, by norm_num⟩,
    ((resize_behavior initState 1024 768).1 (by norm_num) (by norm_num)).1⟩,
   (resize_behavior initState 0 768).2 (Or.inl rfl)⟩

/-- Claim C6: a `Lost` frame acquisition reconfigures the surface at the last
known size, leaves the uniform unchanged (given the invariant that
`aspect_ratio` already equals width/height), and continues; `OutOfMemory`
terminates; `Outdated`/`Timeout` are logged and skipped with the state
untouched. -/
theorem render_failure_classification (s : State)
    (hw : 0 < s.size_width) (hh : 0 < s.size_height)
    (ha : s.mandelbrot_uniform.aspect_ratio = (s.size_width : ℚ) / (s.size_height : ℚ)) :
    (handleRedraw s (some SurfaceError.lost)).1.mandelbrot_uniform = s.mandelbrot_uniform ∧
    (handleRedraw s (some SurfaceError.lost)).1.config_width = s.size_width ∧
    (handleRedraw s (some SurfaceError.lost)).1.config_height = s.size_height ∧
    (handleRedraw s (some SurfaceError.lost)).2 = RedrawOutcome.recovered ∧
    handleRedraw s (some SurfaceError.outOfMemory) = (s, RedrawOutcome.terminated) ∧
    handleRedraw s (some SurfaceError.outdated) = (s, RedrawOutcome.skippedLogged) ∧
    handleRedraw s (some SurfaceError.timeout) = (s, RedrawOutcome.skippedLogged) := by
  refine ⟨?_, ?_, ?_, rfl, rfl, rfl, rfl⟩
  · have ha' : (s.size_width : ℚ) / (s.size_height : ℚ) = s.mandelbrot_uniform.aspect_ratio :=
      ha.symm
    simp [handleRedraw, resize, hw, hh, ha']
  · simp [handleRedraw, resize, hw, hh]
  · simp [handleRedraw, resize, hw, hh]

/-- Witness for C6: the classification at the initial state (size 800×600,
aspect ratio 800/600). -/
theorem render_failure_classification_witness :
    (0 < initState.size_width ∧ 0 < initState.size_height ∧
      initState.mandelbrot_uniform.aspect_ratio =
        (initState.size_width : ℚ) / (initState.size_height : ℚ)) ∧
    handleRedraw initState (some SurfaceError.outOfMemory) =
      (initState, RedrawOutcome.terminated) :=
  ⟨⟨by norm_num [initState], by norm_num [initState], by norm_num [initState]⟩,
   (render_failure_classification initState (by norm_num [initState])
       (by norm_num [initState]) (by norm_num [initState])).2.2.2.2.1⟩

/-- As long as the running total cannot overflow, the key handler keeps
`max_iterations` at a multiple of 128 no smaller than 128. -/
theorem applyKeys_inv (ks : List ArrowKey) :
    ∀ m : Nat, 128 ≤ m → 128 ∣ m →
      m + 128 * ks.count ArrowKey.up ≤ 2 ^ 32 - 128 →
      128 ≤ applyKeys ks m ∧ 128 ∣ applyKeys ks m := by
  induction ks with
  | nil => intro m h1 h2 _; exact ⟨h1, h2⟩
  | cons k t ih =>
    intro m h1 h2 h3
    cases k with
    | up =>
      rw [List.count_cons_self] at h3
      rw [applyKeys_cons]
      have hstep : iterKeyStep m ArrowKey.up = m + 128 := by
        simp only [iterKeyStep]
        omega
      rw [hstep]
      exact ih (m + 128) (by omega) (by omega) (by omega)
    | down =>
      rw [List.count_cons_of_ne (by simp)] at h3
      rw [applyKeys_cons]
      have hstep : iterKeyStep m ArrowKey.down = max (m - 128) 128 := rfl
      rw [hstep]
      exact ih _ (le_max_right _ _) (by omega) (by omega)

/-- Closed form of pressing ArrowUp `n` times: the start value plus `128 * n`,
reduced modulo `2 ^ 32`. -/
theorem applyKeys_replicate_up (n : Nat) :
    ∀ m : Nat, m < 2 ^ 32 →
      applyKeys (List.replicate n ArrowKey.up) m = (m + 128 * n) % 2 ^ 32 := by
  induction n with
  | zero =>
    intro m hm
    simp [applyKeys_nil]
    omega
  | succ n ih =>
    intro m hm
    rw [List.replicate_succ, applyKeys_cons]
    have hstep : iterKeyStep m ArrowKey.up = (m + 128) % 2 ^ 32 := rfl
    rw [hstep, ih _ (Nat.mod_lt _ (by norm_num))]
    omega

/-- Counterexample for C2: 33554431 ArrowUp presses from the initial budget
128 wrap the `u32` to 0, which is below 128 (and not positive). -/
theorem iteration_bounds_counterexample :
    applyKeys (List.replicate 33554431 ArrowKey.up) 128 = 0 ∧
    applyKeys (List.replicate 33554431 ArrowKey.up) 128 < 128 := by
  have h := applyKeys_replicate_up 33554431 128 (by norm_num)
  constructor <;> · rw [h]; norm_num

/-- Claim C2 (amended): starting from 128, for any press sequence with at
most 33554430 ArrowUp presses (so that the `u32` cannot wrap),
`max_iterations` stays ≥ 128 and a multiple of 128. -/
theorem iteration_bounds_amended (ks : List ArrowKey)
    (h : ks.count ArrowKey.up ≤ 33554430) :
    128 ≤ applyKeys ks 128 ∧ 128 ∣ applyKeys ks 128 :=
  applyKeys_inv ks 128 (by norm_num) (by norm_num) (by omega)

/-- Witness for C2 (amended): a short Up/Down/Down sequence. -/
theorem iteration_bounds_amended_witness :
    ([ArrowKey.up, ArrowKey.down, ArrowKey.down].count ArrowKey.up ≤ 33554430) ∧
    128 ≤ applyKeys [ArrowKey.up, ArrowKey.down, ArrowKey.down] 128 ∧
    128 ∣ applyKeys [ArrowKey.up, ArrowKey.down, ArrowKey.down] 128 :=
  ⟨by decide,
   (iteration_bounds_amended [ArrowKey.up, ArrowKey.down, ArrowKey.down] (by decide)).1,
   (iteration_bounds_amended [ArrowKey.up, ArrowKey.down, ArrowKey.down] (by decide)).2⟩

/-- One event-loop step keeps the viewport height positive when the event is
not a wheel event of delta ≥ 10. -/
theorem step_height_pos (s : State) (e : WindowEvent)
    (hh : 0 < s.mandelbrot_uniform.height) (he : wheelBounded e = true) :
    0 < (step s e).mandelbrot_uniform.height := by
  cases e with
  | cursorLeft => simpa [step, input] using hh
  | mouseInput p => simpa [step, input] using hh
  | cursorMoved x y =>
    by_cases hd : s.dragging <;> simp [step, input, panUniform, hd] <;> exact hh
  | mouseWheel d =>
    have hd : d < 10 := by simpa [wheelBounded] using he
    have hscale : (0 : ℚ) < 1 - d / 10 := by linarith
    simpa [step, input, zoomUniform] using mul_pos hh hscale
  | keyboardInput k => simpa [step, input] using hh
  | resized w h =>
    simp only [step, input, resize]
    split
    · simpa using hh
    · exact hh

/-- The height stays positive along any event sequence whose wheel deltas are
all below 10. -/
theorem reach_height_pos (evs : List WindowEvent) :
    ∀ s : State, 0 < s.mandelbrot_uniform.height →
      (∀ e ∈ evs, wheelBounded e = true) →
      0 < (reach s evs).mandelbrot_uniform.height := by
  induction evs with
  | nil => intro s hh _; exact hh
  | cons e t ih =>
    intro s hh hall
    rw [reach_cons]
    exact ih (step s e) (step_height_pos s e hh (hall e (by simp)))
      (fun e' he' => hall e' (by simp [he']))

/-- Counterexample for C3: a single wheel event with delta 10 (scale = 0)
drives the height of the initial viewport to exactly 0, so the reachable
state after it violates `height > 0`. -/
theorem height_positive_counterexample :
    (reach initState [WindowEvent.mouseWheel 10]).mandelbrot_uniform.height = 0 ∧
    ¬ 0 < (reach initState [WindowEvent.mouseWheel 10]).mandelbrot_uniform.height := by
  have h : (reach initState [WindowEvent.mouseWheel 10]).mandelbrot_uniform.height = 0 := by
    simp only [reach_cons, reach_nil, step, input, zoomUniform, initState]
    norm_num
  exact ⟨h, by rw [h]; norm_num⟩

/-- Claim C3 (amended): every state reachable from the initial viewport by
pan, wheel, key, and resize events whose wheel deltas are all strictly below
10 has strictly positive height. -/
theorem height_positive_amended (evs : List WindowEvent)
    (h : ∀ e ∈ evs, wheelBounded e = true) :
    0 < (reach initState evs).mandelbrot_uniform.height :=
  reach_height_pos evs initState (by norm_num [initState]) h

/-- Witness for C3 (amended): a single wheel event of delta 1. -/
theorem height_positive_amended_witness :
    (∀ e ∈ [WindowEvent.mouseWheel 1], wheelBounded e = true) ∧
    0 < (reach initState [WindowEvent.mouseWheel 1]).mandelbrot_uniform.height := by
  have hb : ∀ e ∈ [WindowEvent.mouseWheel 1], wheelBounded e = true := by
    intro e he
    simp only [List.mem_singleton] at he
    subst he
    simp [wheelBounded]
  exact ⟨hb, height_positive_amended [WindowEvent.mouseWheel 1] hb⟩
